import Mathlib

/-!
Verification of the teleportation navigation system in
`src/components/a-cursor-navigation.js` (A-Frame components `navmesh`,
`raycast-exclude`, `a-cursor-teleport`).

The JavaScript component is embedded shallowly:

* geometry is exact rational arithmetic (`ℚ`); three.js computes in binary
  floating point, and every claim treated here is about control flow and
  exact algebraic identities, not rounding;
* meshes are identified by natural numbers; the mutable
  `mesh.userData` flags live in a store `Nat → UserData` threaded through the
  state, mirroring the in-place mutation the component performs;
* the three.js raycaster is host-runtime code, so a ray is represented by the
  full ascending-distance list of its intersections with the scene, and
  `raycaster.intersectObjects(objs, true)` becomes filtering that list to the
  meshes in `objs`;
* the transcendental quaternion routines (`Quaternion.slerpQuaternions`,
  `Quaternion.setFromUnitVectors`) are taken as parameters of the model
  (bundled in `Host`): no claim below depends on the values they produce,
  only on which state fields receive them.
-/

namespace ACursorNav

/-- A three.js `Vector3` with exact rational coordinates. -/
structure Vec3 where
  x : ℚ
  y : ℚ
  z : ℚ
deriving DecidableEq

/-- Dot product, as in three.js `Vector3.dot`. -/
def Vec3.dot (a b : Vec3) : ℚ := a.x * b.x + a.y * b.y + a.z * b.z

/-- Squared Euclidean length, as in three.js `Vector3.lengthSq`. -/
def Vec3.normSq (a : Vec3) : ℚ := a.x * a.x + a.y * a.y + a.z * a.z

/-- Componentwise addition (three.js `Vector3.add`). -/
def Vec3.add (a b : Vec3) : Vec3 := ⟨a.x + b.x, a.y + b.y, a.z + b.z⟩

/-- Scalar multiple (three.js `Vector3.multiplyScalar`). -/
def Vec3.smul (s : ℚ) (a : Vec3) : Vec3 := ⟨s * a.x, s * a.y, s * a.z⟩

/-- Exact rational square root: `some s` with `s * s = q` when such a rational
exists, `none` otherwise. Used to model three.js normalization exactly where
the length is rational. -/
def ratSqrt (q : ℚ) : Option ℚ :=
  if q < 0 then none
  else
    let n := q.num.toNat
    let d := q.den
    let sn := Nat.sqrt n
    let sd := Nat.sqrt d
    if sn * sn = n ∧ sd * sd = d then some ((sn : ℚ) / (sd : ℚ)) else none

/-- three.js `Vector3.normalize` divides by `length() || 1` (so the zero vector
is unchanged). Over exact rationals the length is representable only when
`normSq` has a rational square root; otherwise the representative vector is
kept unscaled. Every downstream use of the vector (the angle comparison in
`isValidNormalsAngle`, the direction of the returned landing normal) is
invariant under this positive rescaling. -/
def Vec3.normalize (v : Vec3) : Vec3 :=
  match ratSqrt v.normSq with
  | some s => if s = 0 then v else ⟨v.x / s, v.y / s, v.z / s⟩
  | none => v

/-- A 3×3 matrix with rational entries, row-major. Stands for the
`THREE.Matrix3` normal matrix (`getNormalMatrix(object.matrixWorld)`, the
inverse transpose of the upper-left 3×3 of the world matrix); the model stores
each mesh with its normal matrix directly, since computing the inverse
transpose from a 4×4 world matrix is host-runtime linear algebra none of the
claims touch. -/
structure Mat3 where
  m00 : ℚ
  m01 : ℚ
  m02 : ℚ
  m10 : ℚ
  m11 : ℚ
  m12 : ℚ
  m20 : ℚ
  m21 : ℚ
  m22 : ℚ
deriving DecidableEq

/-- Matrix-vector product, three.js `Vector3.applyMatrix3`. -/
def Mat3.applyTo (m : Mat3) (v : Vec3) : Vec3 :=
  ⟨m.m00 * v.x + m.m01 * v.y + m.m02 * v.z,
   m.m10 * v.x + m.m11 * v.y + m.m12 * v.z,
   m.m20 * v.x + m.m21 * v.y + m.m22 * v.z⟩

/-- The identity matrix (normal matrix of an untransformed object). -/
def Mat3.id : Mat3 := ⟨1, 0, 0, 0, 1, 0, 0, 0, 1⟩

/-- The schema field `landingMaxAngle` is an angle θ in degrees; the source
compares `RAD2DEG * referenceNormal.angleTo(worldNormal) ≤ landingMaxAngle`.
Since `angleTo` lands in `[0, π]` and arccos is strictly decreasing, for
θ ∈ [0, 180] this comparison is equivalent to `cos(angle) ≥ cos θ`, and for
θ > 180 it is always true (encodable as cos θ = −1). To stay in exact rational
arithmetic the threshold is carried as the cosine of θ in signed-square form:
`cosNonneg` is the sign of cos θ (θ ≤ 90 or not) and `cosSq` is `cos² θ`. The
default `landingMaxAngle: 45` is `⟨true, 1/2⟩`. -/
structure AngleThreshold where
  cosNonneg : Bool
  cosSq : ℚ
deriving DecidableEq

/-- Decides `a.angleTo(b) ≤ θ` for the threshold `t` representing θ.
three.js `angleTo` returns `acos(clamp(dot/√(lengthSq·lengthSq), -1, 1))` and
returns `π/2` outright when a length is zero; by Cauchy–Schwarz the clamp is
the identity on exact rationals. `cos(angle) ≥ cos θ` is decided by sign
analysis and squaring. -/
def angleDegLe (a b : Vec3) (t : AngleThreshold) : Bool :=
  let d := a.dot b
  let pq := a.normSq * b.normSq
  if pq = 0 then
    -- degenerate vector: angleTo is π/2, valid iff 90° ≤ θ, i.e. cos θ ≤ 0
    !t.cosNonneg || t.cosSq = 0
  else if t.cosNonneg then
    0 ≤ d ∧ t.cosSq * pq ≤ d * d
  else
    0 ≤ d ∨ d * d ≤ t.cosSq * pq

/-- A three.js `Quaternion` with exact rational components. -/
structure Quat where
  x : ℚ
  y : ℚ
  z : ℚ
  w : ℚ
deriving DecidableEq

/-- Model of `Quaternion.identity` (`this.teleportIndicator.quaternion.identity()`). -/
def quatIdentity : Quat := ⟨0, 0, 0, 1⟩

/-- The mutable `mesh.userData` flags the components read and write:
`collision` (set by the `navmesh` component and by `updateRaycastObjects`),
`isNavmesh` (set only by `updateRaycastObjects`), and `raycastExclude`
(set by the `raycast-exclude` component). -/
structure UserData where
  collision : Bool
  isNavmesh : Bool
  raycastExclude : Bool
deriving DecidableEq

/-- Fresh `userData` ({} in JavaScript: all flags absent, hence falsy). -/
def UserData.none : UserData := ⟨false, false, false⟩

/-- One entry of the array returned by `raycaster.intersectObjects`: the hit
mesh (`object`, by id), the `distance` along the ray, the world-space hit
`point`, and the local `face.normal`. -/
structure Intersection where
  objId : Nat
  distance : ℚ
  point : Vec3
  faceNormal : Vec3
deriving DecidableEq

/-- A successful landing resolution, the `{point, normal}` object returned by
`getTeleportPositionFromCursor`. -/
structure Landing where
  point : Vec3
  normal : Vec3
deriving DecidableEq

/-- Membership of `rayCastObjects`: either a scene mesh or the default
100×100 collision plane the component creates when `collisionEntities` is the
empty selector (that plane is never added to the scene graph, so it can never
appear among scene meshes or intersections of the cursor raycaster). -/
inductive MeshRef where
  | scene (id : Nat)
  | defaultPlane
deriving DecidableEq

/-- The schema of `a-cursor-teleport`, restricted to the fields the modelled
logic reads. `collisionEntitiesEmpty` / `ignoreEntitiesEmpty` record whether
the selector strings `collisionEntities` / `ignoreEntities` equal `""` (the
source only ever tests them against `""`). The purely visual fields
(`cursorColor`, `cursorOpacity`) and the entity selectors themselves are not
modelled. -/
structure Config where
  landingMaxAngle : AngleThreshold
  landingNormal : Vec3
  transitionSpeed : ℚ
  alignToSurface : Bool
  rotationSmoothing : ℚ
  collisionEntitiesEmpty : Bool
  ignoreEntitiesEmpty : Bool

/-- A snapshot of the host scene as the component queries it: the meshes of
`sceneEl.object3D` in traversal order with their visibility and normal
matrices, and the results of `querySelectorAll(collisionEntities)` /
`querySelectorAll(ignoreEntities)` — per matched entity, the ids of the meshes
found by `entity.object3D.traverse` in traversal order. -/
structure Scene where
  traverseOrder : List Nat
  visible : Nat → Bool
  normalMatrix : Nat → Mat3
  collisionQuery : List (List Nat)
  ignoreQuery : List (List Nat)

/-- Host-runtime quaternion routines used by the component. Both involve
transcendental operations (trigonometric interpolation, normalization by an
irrational length); no claim depends on the values they produce, so the model
is parametric in them. -/
structure Host where
  slerp : Quat → Quat → ℚ → Quat
  setFromUnitVectors : Vec3 → Vec3 → Quat

/-- The mutable fields of the `a-cursor-teleport` component instance (plus the
camera rig pose it owns and the per-mesh `userData` store). Debug-only fields
(`perfStats`, counters that only feed `console.log`) are omitted. -/
structure NavState where
  userData : Nat → UserData
  rayCastObjects : List MeshRef
  allSceneMeshes : List Nat
  cursorRaycasterAvailable : Bool
  transitioning : Bool
  transitionProgress : ℚ
  camPos : Vec3
  camQuat : Quat
  transitionCamPosStart : Vec3
  transitionCamPosEnd : Vec3
  transitionRotStart : Quat
  transitionRotEnd : Quat
  targetSurfaceNormal : Vec3
  indicatorVisible : Bool
  indicatorPos : Vec3
  indicatorQuat : Quat
  lastTeleportCheck : ℚ
  cachedTeleportPos : Option Landing
  lastRaycastUpdate : Option ℚ

/-- Source field `this.upVector = new THREE.Vector3(0, 1, 0)`. -/
def upVector : Vec3 := ⟨0, 1, 0⟩

/-- Source method `updateRaycastObjects` (lines 377-441). In source order: clear
`rayCastObjects`; collect `allSceneMeshes` as every mesh of the scene graph
that is visible and not flagged `raycastExclude` (read from the current
`userData`, before this call mutates any flags); if the collision selector is
nonempty, flag every mesh of every matched entity `collision`/`isNavmesh` and
push it onto `rayCastObjects`, otherwise push the default collision plane;
finally, if the ignore selector is nonempty, push every mesh of every matched
ignore entity onto `rayCastObjects` (without touching its flags). The
`console.warn` on losing all collision objects is logging only. -/
def updateRaycastObjects (cfg : Config) (sc : Scene) (st : NavState) : NavState :=
  let allScene := sc.traverseOrder.filter fun m =>
    sc.visible m && !(st.userData m).raycastExclude
  let navMeshes := sc.collisionQuery.flatten
  let ud1 : Nat → UserData :=
    if cfg.collisionEntitiesEmpty = false then
      fun m => if m ∈ navMeshes then
          { st.userData m with collision := true, isNavmesh := true }
        else st.userData m
    else st.userData
  let rco1 : List MeshRef :=
    if cfg.collisionEntitiesEmpty = false then navMeshes.map MeshRef.scene
    else [MeshRef.defaultPlane]
  let rco2 : List MeshRef :=
    if cfg.ignoreEntitiesEmpty = false then rco1 ++ (sc.ignoreQuery.flatten.map MeshRef.scene)
    else rco1
  { st with userData := ud1, rayCastObjects := rco2, allSceneMeshes := allScene }

/-- Model of `raycaster.intersectObjects(objs, true)`: the raycaster is host code, so
the ray is given by `hits`, its full intersection list against the whole scene
in ascending distance order; intersecting against a subset of the scene
returns that subset's hits in the same (still ascending) order. -/
def intersectObjects (objs : List Nat) (hits : List Intersection) : List Intersection :=
  hits.filter fun h => decide (h.objId ∈ objs)

/-- Checks that `hits` is in ascending distance order, as `intersectObjects` sorts its
result; under this the head of the list is the nearest hit. -/
def distSorted : List Intersection → Bool
  | [] => true
  | [_] => true
  | a :: b :: t => decide (a.distance ≤ b.distance) && distSorted (b :: t)

/-- Source method `isValidNormalsAngle` (lines 539-544): transform the local face normal by
the normal matrix of the object (`applyNormalMatrix` multiplies and then
normalizes), then require the angle to the configured `landingNormal` to be at
most `landingMaxAngle` degrees. -/
def isValidNormalsAngle (cfg : Config) (m : Mat3) (normal : Vec3) : Bool :=
  let worldNormal := (m.applyTo normal).normalize
  angleDegLe cfg.landingNormal worldNormal cfg.landingMaxAngle

/-- Source method `getTeleportPositionFromCursor` (lines 459-502). Guards in source order:
no usable cursor raycaster (`cursorRaycasterAvailable` collapses the one-shot
re-establish branch) → `false`; empty `rayCastObjects` → `false`; raycast
against `allSceneMeshes`; no intersection → `false`; nearest hit not flagged
`isNavmesh` → `false` (occlusion); invalid surface angle or `collision` flag
not `true` → `false`; otherwise return the intersection point and the face
normal taken to world space by the normal matrix and normalized. -/
def getTeleportPositionFromCursor (cfg : Config) (sc : Scene) (st : NavState)
    (hits : List Intersection) : Option Landing :=
  if st.cursorRaycasterAvailable = false then none
  else if st.rayCastObjects = [] then none
  else
    match intersectObjects st.allSceneMeshes hits with
    | [] => none
    | firstHit :: _ =>
      if (st.userData firstHit.objId).isNavmesh = false then none
      else if isValidNormalsAngle cfg (sc.normalMatrix firstHit.objId) firstHit.faceNormal = false
          ∨ (st.userData firstHit.objId).collision = false then none
      else
        some ⟨firstHit.point,
              ((sc.normalMatrix firstHit.objId).applyTo firstHit.faceNormal).normalize⟩

/-- Source method `easeInOutQuad` (lines 648-650):
`t < 0.5 ? 2 * t * t : (4 - 2 * t) * t - 1`. -/
def easeInOutQuad (t : ℚ) : ℚ :=
  if t < 1 / 2 then 2 * t * t else (4 - 2 * t) * t - 1

/-- The same easing as the spec writes it: `t < 0.5 → 2t²`, else
`1 - ((-2t + 2)²) / 2`. Written from the spec sentence, for comparison with
the implemented `easeInOutQuad`. -/
def easeInOutQuadSpec (t : ℚ) : ℚ :=
  if t < 1 / 2 then 2 * t ^ 2 else 1 - ((-2 * t + 2) ^ 2) / 2

/-- three.js `Vector3.lerpVectors(a, b, t)`: componentwise `a + (b - a) * t`. -/
def lerpVectors (a b : Vec3) (t : ℚ) : Vec3 :=
  ⟨a.x + (b.x - a.x) * t, a.y + (b.y - a.y) * t, a.z + (b.z - a.z) * t⟩

/-- Notifications emitted with `this.el.emit(...)`. -/
inductive NavEvent where
  | navigationStart
  | navigationEnd
deriving DecidableEq

/-- The first argument of `transition(positionData, targetQuaternion)`: the
source distinguishes the two shapes by the truthiness of `positionData.point`,
i.e. a `{point, normal}` landing object versus a bare `Vector3`. -/
inductive PositionData where
  | landing (l : Landing)
  | vec (v : Vec3)

/-- Source method `transition` (lines 546-577). In source order: reset
`transitionProgress`; copy the end position (and target surface normal) from
the position data; capture the rig's current position as the start; set
`transitioning`; emit `navigation-start`; capture the rig's current quaternion
as the rotation start; choose the rotation end from the explicit target
quaternion if given, else from `setFromUnitVectors(upVector,
targetSurfaceNormal)` when `alignToSurface` is set and the position data
carried a normal, else keep the current quaternion. The VR tunnel attribute
animation (a DOM visual effect) is outside the model. -/
def transition (cfg : Config) (host : Host) (pd : PositionData)
    (targetQuaternion : Option Quat) (st : NavState) : NavState × List NavEvent :=
  let st1 := { st with transitionProgress := 0 }
  let st2 :=
    match pd with
    | .landing l => { st1 with transitionCamPosEnd := l.point, targetSurfaceNormal := l.normal }
    | .vec v => { st1 with transitionCamPosEnd := v, targetSurfaceNormal := ⟨0, 1, 0⟩ }
  let st3 := { st2 with transitionCamPosStart := st2.camPos, transitioning := true }
  let st4 := { st3 with transitionRotStart := st3.camQuat }
  let st5 :=
    match targetQuaternion, pd with
    | some q, _ => { st4 with transitionRotEnd := q }
    | none, .landing _ =>
      if cfg.alignToSurface = true then
        { st4 with transitionRotEnd := host.setFromUnitVectors upVector st4.targetSurfaceNormal }
      else { st4 with transitionRotEnd := st4.camQuat }
    | none, .vec _ => { st4 with transitionRotEnd := st4.camQuat }
  (st5, [NavEvent.navigationStart])

/-- Source field `this.teleportCheckInterval = 16` ms (~60 Hz cap on hover raycasts). -/
def teleportCheckInterval : ℚ := 16

/-- First block of `tick` (lines 684-691): rebuild the raycast registry when
`lastRaycastUpdate` is unset — or zero, which is falsy in JavaScript — or more
than 15000 ms old, then stamp it with the current time. -/
def registryRefresh (cfg : Config) (sc : Scene) (time : ℚ) (st : NavState) : NavState :=
  match st.lastRaycastUpdate with
  | none =>
    let st1 := updateRaycastObjects cfg sc st
    { st1 with lastRaycastUpdate := some time }
  | some t0 =>
    if t0 = 0 ∨ 15000 < time - t0 then
      let st1 := updateRaycastObjects cfg sc st
      { st1 with lastRaycastUpdate := some time }
    else st

/-- Tail of the hover block of `tick` (lines 708-725): show the indicator on
the landing the block resolved — offset along the normal and oriented to it
when `alignToSurface` is set, at the bare point with identity orientation
otherwise — or hide it when there is no landing. The landing the source reads
(`teleportPos`, the fresh raycast result in the recompute branch, the cache in
the throttled branch) always equals the `cachedTeleportPos` field of the state
the head of the block produced, which is the form used here. -/
def hoverApply (cfg : Config) (host : Host) (st : NavState) : NavState :=
  match st.cachedTeleportPos with
  | some tp =>
    let st2 := { st with indicatorVisible := true, indicatorPos := tp.point }
    if cfg.alignToSurface = true then
      { st2 with indicatorPos := Vec3.add tp.point (Vec3.smul (1 / 100) tp.normal),
                 indicatorQuat := host.setFromUnitVectors upVector tp.normal }
    else { st2 with indicatorQuat := quatIdentity }
  | none => { st with indicatorVisible := false }

/-- Second block of `tick` (lines 693-726), the hover indicator: skipped
entirely while `transitioning`. Otherwise, if the throttle window has passed,
recompute the landing through `getTeleportPositionFromCursor` and cache it
(stamping `lastTeleportCheck`), else keep the cached value, and apply the
result to the indicator through `hoverApply`. -/
def hoverUpdate (cfg : Config) (host : Host) (sc : Scene) (hits : List Intersection)
    (time : ℚ) (st : NavState) : NavState :=
  if st.transitioning = true then st
  else
    hoverApply cfg host
      (if teleportCheckInterval < time - st.lastTeleportCheck then
        { st with cachedTeleportPos := getTeleportPositionFromCursor cfg sc st hits,
                  lastTeleportCheck := time }
       else st)

/-- Third block of `tick` (lines 729-755), the transition animation: advance
`transitionProgress` by `deltaTime * transitionSpeed`, move the rig to the
eased linear interpolation of the start and end positions, slerp the rig
quaternion (scaled by `rotationSmoothing`, clamped to 1) when
`alignToSurface` is set, and when the advanced progress has reached 1 leave
the transitioning state, snap position (and, with `alignToSurface`,
orientation) exactly to the end values and emit `navigation-end`. The VR
tunnel-up attribute animation is outside the model. -/
def transitionStep (cfg : Config) (host : Host) (dt : ℚ) (st : NavState) :
    NavState × List NavEvent :=
  if st.transitioning = true then
    let p := st.transitionProgress + dt * cfg.transitionSpeed
    let e := easeInOutQuad p
    let st1 := { st with transitionProgress := p,
                         camPos := lerpVectors st.transitionCamPosStart st.transitionCamPosEnd e }
    let st2 :=
      if cfg.alignToSurface = true then
        { st1 with camQuat := host.slerp st1.transitionRotStart st1.transitionRotEnd
                     (min (e * cfg.rotationSmoothing) 1) }
      else st1
    if 1 ≤ p then
      let st3 := { st2 with transitioning := false, camPos := st2.transitionCamPosEnd }
      let st4 :=
        if cfg.alignToSurface = true then { st3 with camQuat := st3.transitionRotEnd } else st3
      (st4, [NavEvent.navigationEnd])
    else (st2, [])
  else (st, [])

/-- Source method `tick(time, deltaTime)` (lines 668-756): the debug performance block only
logs; then the three state-changing blocks run in source order — periodic
registry refresh, hover indicator (idle only), transition animation. `hits`
is the current frame's cursor-ray trace through the scene. -/
def tick (cfg : Config) (host : Host) (sc : Scene) (hits : List Intersection)
    (time dt : ℚ) (st : NavState) : NavState × List NavEvent :=
  transitionStep cfg host dt
    (hoverUpdate cfg host sc hits time (registryRefresh cfg sc time st))

/-- The methods of `a-cursor-teleport` that `bindMethods` (lines 240-257)
rebinds, plus the handlers created inline (`cursorClickHandler` in
`setupCursor`, the arrow functions of `setupVRSessionListeners`). -/
inductive HandlerRef where
  | updateRaycastObjectsH
  | getMouseStateH
  | getTeleportPositionH
  | getTeleportPositionVRH
  | isValidNormalsAngleH
  | transitionH
  | triggerTunnelAnimationH
  | triggerTunnelUpAnimationH
  | mouseMoveH
  | mouseDownH
  | mouseUpH
  | easeInOutQuadH
  | hideCursorH
  | checkVRModeH
  | setupVRSessionListenersH
  | cursorClickHandlerH
  | enterVRH
  | exitVRH
  | visibilityChangeH
deriving DecidableEq

/-- Every event source the component attaches listeners to. -/
inductive EventTarget where
  | sceneElT
  | documentT
  | windowT
  | cursorElT
deriving DecidableEq

/-- One `addEventListener(eventName, handler)` registration. -/
structure ListenerEntry where
  target : EventTarget
  eventName : String
  handler : HandlerRef
deriving DecidableEq

/-- The methods `bindMethods` (lines 240-257) rebinds in `init`. -/
def boundMethods : List HandlerRef :=
  [.updateRaycastObjectsH, .getMouseStateH, .getTeleportPositionH,
   .getTeleportPositionVRH, .isValidNormalsAngleH, .transitionH,
   .triggerTunnelAnimationH, .triggerTunnelUpAnimationH, .mouseMoveH,
   .mouseDownH, .mouseUpH, .easeInOutQuadH, .hideCursorH, .checkVRModeH,
   .setupVRSessionListenersH]

/-- Every `addEventListener` call reachable in the `a-cursor-teleport`
component: `setupVRSessionListeners` (lines 278-304) registers the `enter-vr`,
`exit-vr` and `visibilitychange` arrow handlers; `setupCursor` (lines 327-370,
called from `init`, `play` and the VR-session handlers) registers
`cursorClickHandler` for `click` on the `a-cursor` entity; `play` (lines
652-660) registers `hideCursor` for `keydown` on `window`. No call anywhere in
the component registers `mouseDown`, `mouseMove` or `mouseUp`. -/
def registeredListeners : List ListenerEntry :=
  [⟨.sceneElT, "enter-vr", .enterVRH⟩,
   ⟨.sceneElT, "exit-vr", .exitVRH⟩,
   ⟨.documentT, "visibilitychange", .visibilityChangeH⟩,
   ⟨.cursorElT, "click", .cursorClickHandlerH⟩,
   ⟨.windowT, "keydown", .hideCursorH⟩]

/-- Which handlers confirm a teleport, i.e. contain a call of `transition`
guarded by a landing resolution: `cursorClickHandler` (lines 340-355, through
`getTeleportPositionFromCursor`) and `mouseUp` (lines 628-646, through
`getTeleportPosition` after the exact down/up position comparison). -/
def confirmsTeleport : HandlerRef → Bool
  | .cursorClickHandlerH => true
  | .mouseUpH => true
  | _ => false

/-- Concrete configuration used in witnesses: the schema defaults
(`landingMaxAngle: 45` as its signed squared cosine, `landingNormal` up,
`transitionSpeed: 0.0006`, `alignToSurface: true`, `rotationSmoothing: 1.0`,
`collisionEntities: "[navmesh]"` nonempty, `ignoreEntities: ""` empty). -/
def exCfg : Config :=
  { landingMaxAngle := ⟨true, 1 / 2⟩
    landingNormal := ⟨0, 1, 0⟩
    transitionSpeed := 3 / 5000
    alignToSurface := true
    rotationSmoothing := 1
    collisionEntitiesEmpty := false
    ignoreEntitiesEmpty := true }

/-- Concrete configuration with a nonempty `ignoreEntities` selector. -/
def exCfgIgnore : Config := { exCfg with ignoreEntitiesEmpty := false }

/-- Concrete host-runtime quaternion routines for witnesses (any values work:
the claims are parametric in them). -/
def exHost : Host := ⟨fun a _ _ => a, fun _ _ => quatIdentity⟩

/-- Concrete scene: mesh 0 is a 10×10 floor plane of a `[navmesh]` entity,
mesh 1 is a plain box entity in front of it; both untransformed and visible. -/
def exScene : Scene :=
  { traverseOrder := [1, 0]
    visible := fun _ => true
    normalMatrix := fun _ => Mat3.id
    collisionQuery := [[0]]
    ignoreQuery := [] }

/-- Concrete scene where the box entity (mesh 1) matches `ignoreEntities`. -/
def exSceneIgnore : Scene := { exScene with ignoreQuery := [[1]] }

/-- Concrete scene with a steep navmesh: mesh 2 is a vertical wall whose
entity matches `[navmesh]`, standing in front of the floor navmesh 0. -/
def exSceneSteep : Scene :=
  { traverseOrder := [2, 0]
    visible := fun _ => true
    normalMatrix := fun _ => Mat3.id
    collisionQuery := [[2], [0]]
    ignoreQuery := [] }

/-- Component state right after `init` ran `initializeReusableObjects` but
before the first `updateRaycastObjects`: no flags set, empty registries, rig
at head height, not transitioning, hover cache empty. -/
def exInit : NavState :=
  { userData := fun _ => UserData.none
    rayCastObjects := []
    allSceneMeshes := []
    cursorRaycasterAvailable := true
    transitioning := false
    transitionProgress := 0
    camPos := ⟨0, 8 / 5, 0⟩
    camQuat := quatIdentity
    transitionCamPosStart := ⟨0, 0, 0⟩
    transitionCamPosEnd := ⟨0, 0, 0⟩
    transitionRotStart := quatIdentity
    transitionRotEnd := quatIdentity
    targetSurfaceNormal := ⟨0, 1, 0⟩
    indicatorVisible := false
    indicatorPos := ⟨0, 0, 0⟩
    indicatorQuat := quatIdentity
    lastTeleportCheck := 0
    cachedTeleportPos := none
    lastRaycastUpdate := none }

/-- Cursor-ray hit on the box mesh 1, nearest along the ray. -/
def boxHit : Intersection := ⟨1, 1, ⟨0, 1, -2⟩, ⟨0, 0, 1⟩⟩

/-- Cursor-ray hit on the floor navmesh 0, further along the same ray. -/
def floorHit : Intersection := ⟨0, 3, ⟨0, 0, -3⟩, ⟨0, 1, 0⟩⟩

/-- Cursor-ray hit on the vertical navmesh wall 2 (face normal horizontal). -/
def wallHit : Intersection := ⟨2, 2, ⟨0, 1, -2⟩, ⟨0, 0, 1⟩⟩

/-- First traced frame: hovering the floor at time 100 ms from the initial
state (registry gets built, the indicator appears over the landing). -/
def traceSt1 : NavState := (tick exCfg exHost exScene [floorHit] 100 16 exInit).1

/-- The user clicks: `cursorClickHandler` confirms the cached landing and
calls `transition` (with the aligned target quaternion it computed). -/
def traceSt2 : NavState :=
  (transition exCfg exHost (PositionData.landing ⟨⟨0, 0, -3⟩, ⟨0, 1, 0⟩⟩)
    (some quatIdentity) traceSt1).1

/-- Next frame at 116 ms: the transition is in flight. -/
def traceSt3 : NavState := (tick exCfg exHost exScene [floorHit] 116 16 traceSt2).1

/-- A state in the middle of a transition (progress 0.999) toward the floor
landing point, registry stamped at 100 ms. -/
def exTransSt : NavState :=
  { exInit with
    transitioning := true
    transitionProgress := 999 / 1000
    camPos := ⟨0, 1, -1⟩
    transitionCamPosStart := ⟨0, 8 / 5, 0⟩
    transitionCamPosEnd := ⟨0, 0, -3⟩
    targetSurfaceNormal := ⟨0, 1, 0⟩
    indicatorVisible := true
    cachedTeleportPos := some ⟨⟨0, 0, -3⟩, ⟨0, 1, 0⟩⟩
    lastTeleportCheck := 100
    lastRaycastUpdate := some 100 }

lemma resolver_none_of_head_not_navmesh (cfg : Config) (sc : Scene) (st : NavState)
    (hits : List Intersection) (h : Intersection) (rest : List Intersection)
    (hhead : intersectObjects st.allSceneMeshes hits = h :: rest)
    (hnav : (st.userData h.objId).isNavmesh = false) :
    getTeleportPositionFromCursor cfg sc st hits = none := by
  unfold getTeleportPositionFromCursor
  rw [hhead]
  simp [hnav]

lemma updateRaycastObjects_userData_of_mem (cfg : Config) (sc : Scene) (st : NavState)
    (hsel : cfg.collisionEntitiesEmpty = false) (m : Nat)
    (hm : m ∈ sc.collisionQuery.flatten) :
    (updateRaycastObjects cfg sc st).userData m
      = { st.userData m with collision := true, isNavmesh := true } := by
  unfold updateRaycastObjects
  simp only [hsel, reduceIte]
  exact if_pos hm

lemma scene_mem_rayCastObjects (cfg : Config) (sc : Scene) (st : NavState)
    (hsel : cfg.collisionEntitiesEmpty = false) (m : Nat)
    (hm : m ∈ sc.collisionQuery.flatten) :
    MeshRef.scene m ∈ (updateRaycastObjects cfg sc st).rayCastObjects := by
  unfold updateRaycastObjects
  simp only [hsel]
  split
  · exact List.mem_append_left _ (by simpa using List.mem_map_of_mem MeshRef.scene hm)
  · simpa using List.mem_map_of_mem MeshRef.scene hm

lemma registryRefresh_shape (cfg : Config) (sc : Scene) (time : ℚ) (st : NavState) :
    ∃ ud rco asm lru,
      registryRefresh cfg sc time st
        = { st with userData := ud, rayCastObjects := rco,
                    allSceneMeshes := asm, lastRaycastUpdate := lru } := by
  unfold registryRefresh updateRaycastObjects
  cases st.lastRaycastUpdate with
  | none => exact ⟨_, _, _, _, rfl⟩
  | some t0 =>
    dsimp only
    by_cases hcond : t0 = 0 ∨ 15000 < time - t0
    · rw [if_pos hcond]
      exact ⟨_, _, _, _, rfl⟩
    · rw [if_neg hcond]
      exact ⟨st.userData, st.rayCastObjects, st.allSceneMeshes, st.lastRaycastUpdate, rfl⟩

lemma hoverUpdate_of_transitioning (cfg : Config) (host : Host) (sc : Scene)
    (hits : List Intersection) (time : ℚ) (st : NavState)
    (htr : st.transitioning = true) :
    hoverUpdate cfg host sc hits time st = st := by
  unfold hoverUpdate
  simp [htr]

lemma hoverApply_transitioning (cfg : Config) (host : Host) (st : NavState) :
    (hoverApply cfg host st).transitioning = st.transitioning := by
  unfold hoverApply
  cases hcp : st.cachedTeleportPos
  · rfl
  · by_cases ha : cfg.alignToSurface = true <;> simp [ha]

lemma hoverUpdate_transitioning (cfg : Config) (host : Host) (sc : Scene)
    (hits : List Intersection) (time : ℚ) (st : NavState) :
    (hoverUpdate cfg host sc hits time st).transitioning = st.transitioning := by
  unfold hoverUpdate
  by_cases htr : st.transitioning = true
  · simp [htr]
  · rw [if_neg htr]
    by_cases hw : teleportCheckInterval < time - st.lastTeleportCheck
    · rw [if_pos hw, hoverApply_transitioning]
    · rw [if_neg hw, hoverApply_transitioning]

lemma transitionStep_of_idle (cfg : Config) (host : Host) (dt : ℚ) (st : NavState)
    (hid : st.transitioning = false) :
    transitionStep cfg host dt st = (st, []) := by
  unfold transitionStep
  simp [hid]

lemma transition_sets_transitioning (cfg : Config) (host : Host) (pd : PositionData)
    (tq : Option Quat) (st : NavState) :
    (transition cfg host pd tq st).1.transitioning = true := by
  cases pd <;> cases tq <;> by_cases ha : cfg.alignToSurface = true <;>
    simp [transition, ha]

lemma transition_indicator (cfg : Config) (host : Host) (pd : PositionData)
    (tq : Option Quat) (st : NavState) :
    (transition cfg host pd tq st).1.indicatorVisible = st.indicatorVisible := by
  cases pd <;> cases tq <;> by_cases ha : cfg.alignToSurface = true <;>
    simp [transition, ha]

lemma transition_progress_zero (cfg : Config) (host : Host) (pd : PositionData)
    (tq : Option Quat) (st : NavState) :
    (transition cfg host pd tq st).1.transitionProgress = 0 := by
  cases pd <;> cases tq <;> by_cases ha : cfg.alignToSurface = true <;>
    simp [transition, ha]

lemma hoverUpdate_recompute (cfg : Config) (host : Host) (sc : Scene)
    (hits : List Intersection) (time : ℚ) (st : NavState)
    (hid : st.transitioning = false)
    (hw : teleportCheckInterval < time - st.lastTeleportCheck) :
    hoverUpdate cfg host sc hits time st
      = hoverApply cfg host
          { st with cachedTeleportPos := getTeleportPositionFromCursor cfg sc st hits,
                    lastTeleportCheck := time } := by
  unfold hoverUpdate
  rw [if_neg (by simp [hid]), if_pos hw]

lemma hoverApply_visible_of_some (cfg : Config) (host : Host) (st : NavState)
    (tp : Landing) (hc : st.cachedTeleportPos = some tp) :
    (hoverApply cfg host st).indicatorVisible = true := by
  unfold hoverApply
  rw [hc]
  by_cases ha : cfg.alignToSurface = true <;> simp [ha]

lemma registryRefresh_of_none (cfg : Config) (sc : Scene) (time : ℚ) (st : NavState)
    (h : st.lastRaycastUpdate = none) :
    registryRefresh cfg sc time st
      = { updateRaycastObjects cfg sc st with lastRaycastUpdate := some time } := by
  unfold registryRefresh
  rw [h]

lemma transitionStep_indicator_fields (cfg : Config) (host : Host) (dt : ℚ)
    (st : NavState) :
    (transitionStep cfg host dt st).1.indicatorVisible = st.indicatorVisible ∧
    (transitionStep cfg host dt st).1.indicatorPos = st.indicatorPos ∧
    (transitionStep cfg host dt st).1.indicatorQuat = st.indicatorQuat ∧
    (transitionStep cfg host dt st).1.cachedTeleportPos = st.cachedTeleportPos ∧
    (transitionStep cfg host dt st).1.lastTeleportCheck = st.lastTeleportCheck := by
  by_cases htr : st.transitioning = true <;>
  by_cases ha : cfg.alignToSurface = true <;>
  by_cases hp : 1 ≤ st.transitionProgress + dt * cfg.transitionSpeed <;>
    simp [transitionStep, htr, ha, hp]

lemma tick_no_events_of_idle (cfg : Config) (host : Host) (sc : Scene)
    (hits : List Intersection) (time dt : ℚ) (st : NavState)
    (hid : st.transitioning = false) :
    (tick cfg host sc hits time dt st).2 = [] := by
  unfold tick
  obtain ⟨ud, rco, asm, lru, hR⟩ := registryRefresh_shape cfg sc time st
  rw [hR]
  rw [transitionStep_of_idle]
  rw [hoverUpdate_transitioning]
  exact hid

lemma transitionStep_spec (cfg : Config) (host : Host) (dt : ℚ) (st : NavState)
    (htr : st.transitioning = true) :
    (transitionStep cfg host dt st).1.transitionProgress
        = st.transitionProgress + dt * cfg.transitionSpeed ∧
    (1 ≤ st.transitionProgress + dt * cfg.transitionSpeed →
      (transitionStep cfg host dt st).1.transitioning = false ∧
      (transitionStep cfg host dt st).1.camPos = st.transitionCamPosEnd ∧
      (cfg.alignToSurface = true →
        (transitionStep cfg host dt st).1.camQuat = st.transitionRotEnd) ∧
      (cfg.alignToSurface = false →
        (transitionStep cfg host dt st).1.camQuat = st.camQuat) ∧
      (transitionStep cfg host dt st).2 = [NavEvent.navigationEnd]) ∧
    (st.transitionProgress + dt * cfg.transitionSpeed < 1 →
      (transitionStep cfg host dt st).2 = [] ∧
      (transitionStep cfg host dt st).1.transitioning = true) := by
  by_cases ha : cfg.alignToSurface = true <;>
  by_cases hp : 1 ≤ st.transitionProgress + dt * cfg.transitionSpeed <;>
    simp [transitionStep, htr, ha, hp, not_le.mpr, le_of_not_le]

/-- C5. Calling `transition` while a transition is in flight overwrites the
start pose with the rig's current (interpolated) position and quaternion and
the end pose with the new target; the transition restarts at progress 0
without moving the rig, so the eased interpolation at the new start equals
the rig's current position — no jump back to the original start. -/
theorem preempting_transition_replaces_poses (cfg : Config) (host : Host)
    (l : Landing) (targetQ : Option Quat) (st : NavState)
    (htr : st.transitioning = true) :
    (transition cfg host (PositionData.landing l) targetQ st).1.transitionCamPosStart
        = st.camPos ∧
    (transition cfg host (PositionData.landing l) targetQ st).1.transitionRotStart
        = st.camQuat ∧
    (transition cfg host (PositionData.landing l) targetQ st).1.transitionCamPosEnd
        = l.point ∧
    (transition cfg host (PositionData.landing l) targetQ st).1.targetSurfaceNormal
        = l.normal ∧
    (transition cfg host (PositionData.landing l) targetQ st).1.transitionProgress = 0 ∧
    (transition cfg host (PositionData.landing l) targetQ st).1.transitioning = true ∧
    (transition cfg host (PositionData.landing l) targetQ st).1.camPos = st.camPos ∧
    (transition cfg host (PositionData.landing l) targetQ st).1.camQuat = st.camQuat ∧
    (∀ q, targetQ = some q →
      (transition cfg host (PositionData.landing l) targetQ st).1.transitionRotEnd = q) ∧
    lerpVectors
      (transition cfg host (PositionData.landing l) targetQ st).1.transitionCamPosStart
      (transition cfg host (PositionData.landing l) targetQ st).1.transitionCamPosEnd
      (easeInOutQuad
        (transition cfg host (PositionData.landing l) targetQ st).1.transitionProgress)
      = st.camPos ∧
    (transition cfg host (PositionData.landing l) targetQ st).2
      = [NavEvent.navigationStart] := by
  have hlerp : ∀ a : Vec3, ∀ b : Vec3, lerpVectors a b (easeInOutQuad 0) = a := by
    intro a b
    have h0 : easeInOutQuad 0 = 0 := by norm_num [easeInOutQuad]
    rw [h0]
    show Vec3.mk (a.x + (b.x - a.x) * 0) (a.y + (b.y - a.y) * 0) (a.z + (b.z - a.z) * 0) = a
    norm_num
  cases targetQ with
  | some q =>
    refine ⟨rfl, rfl, rfl, rfl, rfl, rfl, rfl, rfl, ?_, hlerp st.camPos l.point, rfl⟩
    intro r hr
    injection hr with hqr
  | none =>
    refine ⟨?_, ?_, ?_, ?_, ?_, ?_, ?_, ?_, fun r hr => by exact absurd hr (by simp),
      ?_, ?_⟩ <;>
      unfold transition <;>
      by_cases ha : cfg.alignToSurface = true <;>
      simp only [ha, reduceIte] <;>
      first
        | rfl
        | exact hlerp st.camPos l.point

/-- Witness for C5: preempting the in-flight transition of `exTransSt` with a
new landing restarts from the current rig pose. -/
theorem preempting_transition_replaces_poses_witness :
    exTransSt.transitioning = true ∧
    (transition exCfg exHost (PositionData.landing ⟨⟨1, 0, 1⟩, ⟨0, 1, 0⟩⟩)
      (some quatIdentity) exTransSt).1.transitionCamPosStart = exTransSt.camPos ∧
    (transition exCfg exHost (PositionData.landing ⟨⟨1, 0, 1⟩, ⟨0, 1, 0⟩⟩)
      (some quatIdentity) exTransSt).1.transitionCamPosEnd = ⟨1, 0, 1⟩ ∧
    (transition exCfg exHost (PositionData.landing ⟨⟨1, 0, 1⟩, ⟨0, 1, 0⟩⟩)
      (some quatIdentity) exTransSt).1.transitionProgress = 0 ∧
    lerpVectors
      (transition exCfg exHost (PositionData.landing ⟨⟨1, 0, 1⟩, ⟨0, 1, 0⟩⟩)
        (some quatIdentity) exTransSt).1.transitionCamPosStart
      (transition exCfg exHost (PositionData.landing ⟨⟨1, 0, 1⟩, ⟨0, 1, 0⟩⟩)
        (some quatIdentity) exTransSt).1.transitionCamPosEnd
      (easeInOutQuad
        (transition exCfg exHost (PositionData.landing ⟨⟨1, 0, 1⟩, ⟨0, 1, 0⟩⟩)
          (some quatIdentity) exTransSt).1.transitionProgress)
      = exTransSt.camPos := by
  have h := preempting_transition_replaces_poses exCfg exHost
    ⟨⟨1, 0, 1⟩, ⟨0, 1, 0⟩⟩ (some quatIdentity) exTransSt rfl
  exact ⟨rfl, h.1, h.2.2.1, h.2.2.2.2.1, h.2.2.2.2.2.2.2.2.2.1⟩

/-- C4. While transitioning, a tick advances `transitionProgress` by exactly
`deltaTime * transitionSpeed` (so it never decreases for nonnegative frame
time and positive speed), and on the frame where the advanced progress
reaches 1 the transition ends: `transitioning` clears, the rig position is
copied exactly from the transition end point (the landing point captured by
`transition`), the rig quaternion is copied exactly from the end orientation
when `alignToSurface` is set (and is left untouched otherwise, where the end
orientation was captured as the start quaternion), `navigation-end` is
emitted on that frame, and no later frame emits again. -/
theorem transition_progress_and_completion (cfg : Config) (host : Host) (sc : Scene)
    (hits : List Intersection) (time dt : ℚ) (st : NavState)
    (hdt : 0 ≤ dt) (hspeed : 0 < cfg.transitionSpeed)
    (htr : st.transitioning = true) :
    (tick cfg host sc hits time dt st).1.transitionProgress
        = st.transitionProgress + dt * cfg.transitionSpeed ∧
    st.transitionProgress ≤ (tick cfg host sc hits time dt st).1.transitionProgress ∧
    (1 ≤ st.transitionProgress + dt * cfg.transitionSpeed →
      (tick cfg host sc hits time dt st).1.transitioning = false ∧
      (tick cfg host sc hits time dt st).1.camPos = st.transitionCamPosEnd ∧
      (cfg.alignToSurface = true →
        (tick cfg host sc hits time dt st).1.camQuat = st.transitionRotEnd) ∧
      (cfg.alignToSurface = false →
        (tick cfg host sc hits time dt st).1.camQuat = st.camQuat) ∧
      (tick cfg host sc hits time dt st).2 = [NavEvent.navigationEnd] ∧
      ∀ time2 dt2 hits2,
        (tick cfg host sc hits2 time2 dt2 (tick cfg host sc hits time dt st).1).2 = []) ∧
    (st.transitionProgress + dt * cfg.transitionSpeed < 1 →
      (tick cfg host sc hits time dt st).2 = [] ∧
      (tick cfg host sc hits time dt st).1.transitioning = true) := by
  obtain ⟨ud, rco, asm, lru, hR⟩ := registryRefresh_shape cfg sc time st
  have htick : tick cfg host sc hits time dt st
      = transitionStep cfg host dt
          { st with userData := ud, rayCastObjects := rco,
                    allSceneMeshes := asm, lastRaycastUpdate := lru } := by
    unfold tick
    rw [hR]
    rw [hoverUpdate_of_transitioning cfg host sc hits time
      { st with userData := ud, rayCastObjects := rco,
                allSceneMeshes := asm, lastRaycastUpdate := lru } htr]
  have hspec := transitionStep_spec cfg host dt
    { st with userData := ud, rayCastObjects := rco,
              allSceneMeshes := asm, lastRaycastUpdate := lru } htr
  rw [htick]
  refine ⟨hspec.1, ?_, ?_, hspec.2.2⟩
  · rw [hspec.1]
    have : 0 ≤ dt * cfg.transitionSpeed := mul_nonneg hdt hspeed.le
    linarith
  · intro hp
    obtain ⟨he1, he2, he3, he4, he5⟩ := hspec.2.1 hp
    exact ⟨he1, he2, he3, he4, he5,
      fun time2 dt2 hits2 => by
        rw [← htick] at he1 ⊢
        exact tick_no_events_of_idle cfg host sc hits2 time2 dt2 _ he1⟩

/-- Witness for C4: from a transition at progress 0.999, a 1000 ms frame
pushes progress past 1, ends the transition, snaps position and orientation
to the end values, emits `navigation-end`, and the following frame is
silent. -/
theorem transition_progress_and_completion_witness :
    (0 : ℚ) ≤ 1000 ∧ 0 < exCfg.transitionSpeed ∧ exTransSt.transitioning = true ∧
    1 ≤ exTransSt.transitionProgress + 1000 * exCfg.transitionSpeed ∧
    (tick exCfg exHost exScene [floorHit] 200 1000 exTransSt).1.transitioning = false ∧
    (tick exCfg exHost exScene [floorHit] 200 1000 exTransSt).1.camPos
      = exTransSt.transitionCamPosEnd ∧
    (tick exCfg exHost exScene [floorHit] 200 1000 exTransSt).1.camQuat
      = exTransSt.transitionRotEnd ∧
    (tick exCfg exHost exScene [floorHit] 200 1000 exTransSt).2
      = [NavEvent.navigationEnd] ∧
    (tick exCfg exHost exScene [floorHit] 216 16
      (tick exCfg exHost exScene [floorHit] 200 1000 exTransSt).1).2 = [] := by
  have hp : (1 : ℚ) ≤ exTransSt.transitionProgress + 1000 * exCfg.transitionSpeed := by
    norm_num [exTransSt, exInit, exCfg]
  have h := transition_progress_and_completion exCfg exHost exScene [floorHit]
    200 1000 exTransSt (by norm_num) (by norm_num [exCfg]) rfl
  obtain ⟨he1, he2, he3, he4, he5, he6⟩ := h.2.2.1 hp
  exact ⟨by norm_num, by norm_num [exCfg], rfl, hp, he1, he2, he3 rfl, he5,
    he6 216 16 [floorHit]⟩

/-- C1. If the nearest intersection of the cursor ray among all visible,
non-`raycast-exclude` scene meshes (the occlusion set a registry rebuild
collects) is not flagged as a navmesh, `getTeleportPositionFromCursor`
returns no landing — whatever lies further along the ray. -/
theorem nearest_non_navmesh_blocks_teleport (cfg : Config) (sc : Scene)
    (st0 : NavState) (hits : List Intersection) (h : Intersection)
    (rest : List Intersection)
    (hsort : distSorted hits = true)
    (hhead : intersectObjects (updateRaycastObjects cfg sc st0).allSceneMeshes hits
      = h :: rest)
    (hnav : ((updateRaycastObjects cfg sc st0).userData h.objId).isNavmesh = false) :
    getTeleportPositionFromCursor cfg sc (updateRaycastObjects cfg sc st0) hits
      = none :=
  resolver_none_of_head_not_navmesh cfg sc _ hits h rest hhead hnav

/-- Witness for C1: the box mesh 1 sits between the camera and the floor
navmesh 0; alone, the floor resolves to a landing, but with the box as the
nearest hit the resolver returns none. -/
theorem nearest_non_navmesh_blocks_teleport_witness :
    distSorted [boxHit, floorHit] = true ∧
    intersectObjects (updateRaycastObjects exCfg exScene exInit).allSceneMeshes
      [boxHit, floorHit] = boxHit :: [floorHit] ∧
    ((updateRaycastObjects exCfg exScene exInit).userData boxHit.objId).isNavmesh
      = false ∧
    getTeleportPositionFromCursor exCfg exScene (updateRaycastObjects exCfg exScene exInit)
      [floorHit] = some ⟨⟨0, 0, -3⟩, ⟨0, 1, 0⟩⟩ ∧
    getTeleportPositionFromCursor exCfg exScene (updateRaycastObjects exCfg exScene exInit)
      [boxHit, floorHit] = none :=
  ⟨by norm_num [distSorted, boxHit, floorHit],
   by norm_num [intersectObjects, updateRaycastObjects, exCfg, exScene, exInit,
     boxHit, floorHit, UserData.none],
   by norm_num [updateRaycastObjects, exCfg, exScene, exInit, boxHit, UserData.none],
   by norm_num [getTeleportPositionFromCursor, updateRaycastObjects, intersectObjects,
     isValidNormalsAngle, angleDegLe, Vec3.normalize, ratSqrt, Vec3.normSq, Vec3.dot,
     Mat3.applyTo, Mat3.id, exCfg, exScene, exInit, floorHit, UserData.none],
   nearest_non_navmesh_blocks_teleport exCfg exScene exInit [boxHit, floorHit]
     boxHit [floorHit]
     (by norm_num [distSorted, boxHit, floorHit])
     (by norm_num [intersectObjects, updateRaycastObjects, exCfg, exScene, exInit,
        boxHit, floorHit, UserData.none])
     (by norm_num [updateRaycastObjects, exCfg, exScene, exInit, boxHit, UserData.none])⟩

/-- C2. If the nearest intersection of the cursor ray among the visible,
non-excluded scene meshes is a currently registered (hence collidable/navmesh
flagged) surface but `isValidNormalsAngle` rejects it — the world-space
normal, the local face normal taken through the normal matrix, deviates from
`landingNormal` by more than `landingMaxAngle` degrees — the resolver returns
no landing, even if a valid navmesh lies further along the ray. -/
theorem steep_navmesh_blocks_teleport (cfg : Config) (sc : Scene) (st0 : NavState)
    (hits : List Intersection) (h : Intersection) (rest : List Intersection)
    (hsort : distSorted hits = true)
    (hsel : cfg.collisionEntitiesEmpty = false)
    (hmem : h.objId ∈ sc.collisionQuery.flatten)
    (hhead : intersectObjects (updateRaycastObjects cfg sc st0).allSceneMeshes hits
      = h :: rest)
    (hangle : isValidNormalsAngle cfg (sc.normalMatrix h.objId) h.faceNormal = false) :
    getTeleportPositionFromCursor cfg sc (updateRaycastObjects cfg sc st0) hits
      = none := by
  have hud := updateRaycastObjects_userData_of_mem cfg sc st0 hsel h.objId hmem
  unfold getTeleportPositionFromCursor
  rw [hhead]
  simp [hud, hangle]

/-- Witness for C2: a vertical navmesh wall (face normal horizontal, 90° to
the reference up, beyond the default 45° limit) is the nearest hit in front of
the valid floor navmesh; the resolver rejects, though the floor alone
resolves. -/
theorem steep_navmesh_blocks_teleport_witness :
    distSorted [wallHit, floorHit] = true ∧
    exCfg.collisionEntitiesEmpty = false ∧
    wallHit.objId ∈ exSceneSteep.collisionQuery.flatten ∧
    intersectObjects (updateRaycastObjects exCfg exSceneSteep exInit).allSceneMeshes
      [wallHit, floorHit] = wallHit :: [floorHit] ∧
    isValidNormalsAngle exCfg (exSceneSteep.normalMatrix wallHit.objId) wallHit.faceNormal
      = false ∧
    getTeleportPositionFromCursor exCfg exSceneSteep
      (updateRaycastObjects exCfg exSceneSteep exInit) [floorHit]
      = some ⟨⟨0, 0, -3⟩, ⟨0, 1, 0⟩⟩ ∧
    getTeleportPositionFromCursor exCfg exSceneSteep
      (updateRaycastObjects exCfg exSceneSteep exInit) [wallHit, floorHit] = none :=
  ⟨by norm_num [distSorted, wallHit, floorHit],
   by norm_num [exCfg],
   by norm_num [exSceneSteep, wallHit],
   by norm_num [intersectObjects, updateRaycastObjects, exCfg, exSceneSteep, exInit,
     wallHit, floorHit, UserData.none],
   by norm_num [isValidNormalsAngle, angleDegLe, Vec3.normalize, ratSqrt, Vec3.normSq,
     Vec3.dot, Mat3.applyTo, Mat3.id, exCfg, exSceneSteep, wallHit],
   by
     norm_num [getTeleportPositionFromCursor, updateRaycastObjects, intersectObjects,
       isValidNormalsAngle, angleDegLe, Vec3.normalize, ratSqrt, Vec3.normSq, Vec3.dot,
       Mat3.applyTo, Mat3.id, exCfg, exSceneSteep, exInit, floorHit, UserData.none]
     intro h
     exact absurd h (by simp),
   steep_navmesh_blocks_teleport exCfg exSceneSteep exInit [wallHit, floorHit]
     wallHit [floorHit]
     (by norm_num [distSorted, wallHit, floorHit])
     (by norm_num [exCfg])
     (by norm_num [exSceneSteep, wallHit])
     (by norm_num [intersectObjects, updateRaycastObjects, exCfg, exSceneSteep, exInit,
        wallHit, floorHit, UserData.none])
     (by norm_num [isValidNormalsAngle, angleDegLe, Vec3.normalize, ratSqrt, Vec3.normSq,
        Vec3.dot, Mat3.applyTo, Mat3.id, exCfg, exSceneSteep, wallHit])⟩

/-- C3. If the nearest intersection of the cursor ray among the visible,
non-excluded scene meshes is a currently registered navmesh surface (so the
rebuild flagged it collidable/navmesh) and `isValidNormalsAngle` accepts it,
the resolver returns the landing whose point is exactly the intersection
point and whose normal is the face normal taken to world space by the normal
matrix and normalized. -/
theorem valid_navmesh_resolves_landing (cfg : Config) (sc : Scene) (st0 : NavState)
    (hits : List Intersection) (h : Intersection) (rest : List Intersection)
    (hsort : distSorted hits = true)
    (hray : st0.cursorRaycasterAvailable = true)
    (hsel : cfg.collisionEntitiesEmpty = false)
    (hmem : h.objId ∈ sc.collisionQuery.flatten)
    (hhead : intersectObjects (updateRaycastObjects cfg sc st0).allSceneMeshes hits
      = h :: rest)
    (hangle : isValidNormalsAngle cfg (sc.normalMatrix h.objId) h.faceNormal = true) :
    getTeleportPositionFromCursor cfg sc (updateRaycastObjects cfg sc st0) hits
      = some ⟨h.point, ((sc.normalMatrix h.objId).applyTo h.faceNormal).normalize⟩ := by
  have hud := updateRaycastObjects_userData_of_mem cfg sc st0 hsel h.objId hmem
  have hne : (updateRaycastObjects cfg sc st0).rayCastObjects ≠ [] :=
    List.ne_nil_of_mem (scene_mem_rayCastObjects cfg sc st0 hsel h.objId hmem)
  have hray2 : (updateRaycastObjects cfg sc st0).cursorRaycasterAvailable = true := hray
  unfold getTeleportPositionFromCursor
  rw [hhead]
  simp [hud, hangle, hray2, hne]

/-- Witness for C3: the straight-down ray onto the registered floor navmesh
resolves to its intersection point with the world-space up normal. -/
theorem valid_navmesh_resolves_landing_witness :
    distSorted [floorHit] = true ∧
    exInit.cursorRaycasterAvailable = true ∧
    exCfg.collisionEntitiesEmpty = false ∧
    floorHit.objId ∈ exScene.collisionQuery.flatten ∧
    intersectObjects (updateRaycastObjects exCfg exScene exInit).allSceneMeshes [floorHit]
      = floorHit :: [] ∧
    isValidNormalsAngle exCfg (exScene.normalMatrix floorHit.objId) floorHit.faceNormal
      = true ∧
    getTeleportPositionFromCursor exCfg exScene (updateRaycastObjects exCfg exScene exInit)
      [floorHit]
      = some ⟨floorHit.point,
              ((exScene.normalMatrix floorHit.objId).applyTo floorHit.faceNormal).normalize⟩ :=
  ⟨by norm_num [distSorted],
   rfl, rfl,
   by norm_num [exScene, floorHit],
   by norm_num [intersectObjects, updateRaycastObjects, exCfg, exScene, exInit,
     floorHit, UserData.none],
   by norm_num [isValidNormalsAngle, angleDegLe, Vec3.normalize, ratSqrt, Vec3.normSq,
     Vec3.dot, Mat3.applyTo, Mat3.id, exCfg, exScene, floorHit],
   valid_navmesh_resolves_landing exCfg exScene exInit [floorHit] floorHit []
     (by norm_num [distSorted]) rfl rfl
     (by norm_num [exScene, floorHit])
     (by norm_num [intersectObjects, updateRaycastObjects, exCfg, exScene, exInit,
        floorHit, UserData.none])
     (by norm_num [isValidNormalsAngle, angleDegLe, Vec3.normalize, ratSqrt, Vec3.normSq,
        Vec3.dot, Mat3.applyTo, Mat3.id, exCfg, exScene, floorHit])⟩

/-- C6. The implemented easing `easeInOutQuad` agrees pointwise on [0, 1]
with the symmetric quadratic ease as the spec writes it. -/
theorem ease_impl_matches_spec (t : ℚ) (h0 : 0 ≤ t) (h1 : t ≤ 1) :
    easeInOutQuad t = easeInOutQuadSpec t := by
  unfold easeInOutQuad easeInOutQuadSpec
  split <;> ring

/-- Witness for C6 at t = 3/4. -/
theorem ease_impl_matches_spec_witness :
    (0 : ℚ) ≤ 3 / 4 ∧ (3 / 4 : ℚ) ≤ 1 ∧
    easeInOutQuad (3 / 4) = easeInOutQuadSpec (3 / 4) :=
  ⟨by norm_num, by norm_num,
   ease_impl_matches_spec (3 / 4) (by norm_num) (by norm_num)⟩

/-- C9. Rebuilding the raycast registry twice against an unchanged scene
yields the identical collidable set (`rayCastObjects`, even as a list), the
identical occlusion set (`allSceneMeshes`) and the identical flag store. -/
theorem rebuild_idempotent (cfg : Config) (sc : Scene) (st : NavState) :
    (updateRaycastObjects cfg sc (updateRaycastObjects cfg sc st)).rayCastObjects
      = (updateRaycastObjects cfg sc st).rayCastObjects ∧
    (updateRaycastObjects cfg sc (updateRaycastObjects cfg sc st)).allSceneMeshes
      = (updateRaycastObjects cfg sc st).allSceneMeshes ∧
    (updateRaycastObjects cfg sc (updateRaycastObjects cfg sc st)).userData
      = (updateRaycastObjects cfg sc st).userData := by
  refine ⟨rfl, ?_, ?_⟩
  · unfold updateRaycastObjects
    dsimp only
    apply List.filter_congr
    intro m _
    by_cases hc : cfg.collisionEntitiesEmpty = false <;>
      simp only [hc, if_true, if_false, reduceIte] <;>
      by_cases hm : m ∈ sc.collisionQuery.flatten <;> simp [hm]
  · unfold updateRaycastObjects
    dsimp only
    funext m
    by_cases hc : cfg.collisionEntitiesEmpty = false <;>
      simp only [hc, if_true, if_false, reduceIte] <;>
      by_cases hm : m ∈ sc.collisionQuery.flatten <;> simp [hm]

/-- Counterexample to C7 as stated. Reachable trace: from the initial state,
one hover frame shows the indicator over the floor navmesh; the click starts
a transition; on the next frame the component is transitioning and the
indicator is still visible — neither `transition` nor the transitioning
branch of `tick` ever hides it. -/
theorem indicator_visible_while_transitioning_cex :
    traceSt2.transitioning = true ∧ traceSt2.indicatorVisible = true ∧
    traceSt3.transitioning = true ∧ traceSt3.indicatorVisible = true := by
  have hres : getTeleportPositionFromCursor exCfg exScene
      { updateRaycastObjects exCfg exScene exInit with lastRaycastUpdate := some 100 }
      [floorHit] = some ⟨⟨0, 0, -3⟩, ⟨0, 1, 0⟩⟩ := by
    norm_num [getTeleportPositionFromCursor, updateRaycastObjects, intersectObjects,
      isValidNormalsAngle, angleDegLe, Vec3.normalize, ratSqrt, Vec3.normSq, Vec3.dot,
      Mat3.applyTo, Mat3.id, exCfg, exScene, exInit, floorHit, UserData.none]
  have hvis1 : traceSt1.indicatorVisible = true := by
    unfold traceSt1 tick
    rw [registryRefresh_of_none exCfg exScene 100 exInit rfl]
    rw [hoverUpdate_recompute exCfg exHost exScene [floorHit] 100
      { updateRaycastObjects exCfg exScene exInit with lastRaycastUpdate := some 100 }
      rfl (by show teleportCheckInterval < (100 : ℚ) - 0; norm_num [teleportCheckInterval])]
    rw [transitionStep_of_idle exCfg exHost 16 _ (by rw [hoverApply_transitioning]; rfl)]
    exact hoverApply_visible_of_some exCfg exHost _ ⟨⟨0, 0, -3⟩, ⟨0, 1, 0⟩⟩ hres
  have h2tr : traceSt2.transitioning = true := by
    unfold traceSt2
    exact transition_sets_transitioning exCfg exHost _ _ _
  have h2vis : traceSt2.indicatorVisible = true := by
    unfold traceSt2
    rw [transition_indicator]
    exact hvis1
  have h2pr : traceSt2.transitionProgress = 0 := by
    unfold traceSt2
    exact transition_progress_zero exCfg exHost _ _ _
  obtain ⟨ud, rco, asm, lru, hR⟩ := registryRefresh_shape exCfg exScene 116 traceSt2
  have h3tick : tick exCfg exHost exScene [floorHit] 116 16 traceSt2
      = transitionStep exCfg exHost 16
          { traceSt2 with userData := ud, rayCastObjects := rco,
                          allSceneMeshes := asm, lastRaycastUpdate := lru } := by
    unfold tick
    rw [hR]
    rw [hoverUpdate_of_transitioning exCfg exHost exScene [floorHit] 116
      { traceSt2 with userData := ud, rayCastObjects := rco,
                      allSceneMeshes := asm, lastRaycastUpdate := lru } h2tr]
  have hspec := transitionStep_spec exCfg exHost 16
    { traceSt2 with userData := ud, rayCastObjects := rco,
                    allSceneMeshes := asm, lastRaycastUpdate := lru } h2tr
  have hlt : traceSt2.transitionProgress + 16 * exCfg.transitionSpeed < 1 := by
    rw [h2pr]
    norm_num [exCfg]
  obtain ⟨hev, htr3⟩ := hspec.2.2 hlt
  refine ⟨h2tr, h2vis, ?_, ?_⟩
  · unfold traceSt3
    rw [h3tick]
    exact htr3
  · unfold traceSt3
    rw [h3tick]
    rw [(transitionStep_indicator_fields exCfg exHost 16 _).1]
    exact h2vis

/-- C7 as amended: while a transition is in progress the hover block of
`tick` is skipped entirely, so the indicator is not hidden but frozen — its
visibility, pose and the hover cache are left exactly as they were when the
transition started; recomputation and show/hide happen only while idle. -/
theorem indicator_frozen_while_transitioning (cfg : Config) (host : Host)
    (sc : Scene) (hits : List Intersection) (time dt : ℚ) (st : NavState)
    (htr : st.transitioning = true) :
    (tick cfg host sc hits time dt st).1.indicatorVisible = st.indicatorVisible ∧
    (tick cfg host sc hits time dt st).1.indicatorPos = st.indicatorPos ∧
    (tick cfg host sc hits time dt st).1.indicatorQuat = st.indicatorQuat ∧
    (tick cfg host sc hits time dt st).1.cachedTeleportPos = st.cachedTeleportPos ∧
    (tick cfg host sc hits time dt st).1.lastTeleportCheck = st.lastTeleportCheck := by
  obtain ⟨ud, rco, asm, lru, hR⟩ := registryRefresh_shape cfg sc time st
  unfold tick
  rw [hR]
  rw [hoverUpdate_of_transitioning cfg host sc hits time
    { st with userData := ud, rayCastObjects := rco,
              allSceneMeshes := asm, lastRaycastUpdate := lru } htr]
  exact transitionStep_indicator_fields cfg host dt _

/-- Witness for the amended C7: one transitioning frame from `exTransSt`
leaves all indicator state exactly as it was. -/
theorem indicator_frozen_while_transitioning_witness :
    exTransSt.transitioning = true ∧
    (tick exCfg exHost exScene [floorHit] 200 16 exTransSt).1.indicatorVisible
      = exTransSt.indicatorVisible ∧
    (tick exCfg exHost exScene [floorHit] 200 16 exTransSt).1.cachedTeleportPos
      = exTransSt.cachedTeleportPos :=
  ⟨rfl,
   (indicator_frozen_while_transitioning exCfg exHost exScene [floorHit] 200 16
     exTransSt rfl).1,
   (indicator_frozen_while_transitioning exCfg exHost exScene [floorHit] 200 16
     exTransSt rfl).2.2.2.1⟩

/-- Counterexample to C8 as stated. With `ignoreEntities` matching the box
entity (mesh 1): after a rebuild the box mesh is a member of the
`rayCastObjects` registry, and — being visible and not flagged
`raycast-exclude` — it stays in the occlusion set, so with the box in front
of the floor navmesh the resolver returns no landing, while the floor alone
resolves. Only `raycast-exclude` makes a mesh passthrough. -/
theorem ignore_entities_not_passthrough_cex :
    MeshRef.scene 1 ∈ (updateRaycastObjects exCfgIgnore exSceneIgnore exInit).rayCastObjects ∧
    ((updateRaycastObjects exCfgIgnore exSceneIgnore exInit).userData 1).isNavmesh = false ∧
    ((updateRaycastObjects exCfgIgnore exSceneIgnore exInit).userData 1).collision = false ∧
    boxHit.objId = 1 ∧
    1 ∈ (updateRaycastObjects exCfgIgnore exSceneIgnore exInit).allSceneMeshes ∧
    getTeleportPositionFromCursor exCfgIgnore exSceneIgnore
      (updateRaycastObjects exCfgIgnore exSceneIgnore exInit) [boxHit, floorHit] = none ∧
    getTeleportPositionFromCursor exCfgIgnore exSceneIgnore
      (updateRaycastObjects exCfgIgnore exSceneIgnore exInit) [floorHit]
      = some ⟨⟨0, 0, -3⟩, ⟨0, 1, 0⟩⟩ := by
  refine ⟨?_, ?_, ?_, rfl, ?_, ?_, ?_⟩ <;>
    norm_num [getTeleportPositionFromCursor, updateRaycastObjects, intersectObjects,
      isValidNormalsAngle, angleDegLe, Vec3.normalize, ratSqrt, Vec3.normSq, Vec3.dot,
      Mat3.applyTo, Mat3.id, exCfgIgnore, exCfg, exSceneIgnore, exScene, exInit,
      boxHit, floorHit, UserData.none] <;>
    exact fun hcontra => absurd hcontra (by simp)

/-- C8 as amended: meshes of entities matched by `ignoreEntities` are
appended to `rayCastObjects` (not removed from it), their flags are left
untouched (so they are not valid landings unless flagged elsewhere), they
remain members of the occlusion set whenever visible and not flagged
`raycast-exclude`, and as the nearest unflagged hit they block landing
resolution onto a navmesh lying behind them. -/
theorem ignore_entities_appended_and_occluding (cfg : Config) (sc : Scene)
    (st0 : NavState) (m : Nat)
    (hignore : cfg.ignoreEntitiesEmpty = false)
    (hm : m ∈ sc.ignoreQuery.flatten) :
    MeshRef.scene m ∈ (updateRaycastObjects cfg sc st0).rayCastObjects ∧
    (m ∉ sc.collisionQuery.flatten →
      (updateRaycastObjects cfg sc st0).userData m = st0.userData m) ∧
    (m ∈ sc.traverseOrder → sc.visible m = true →
      (st0.userData m).raycastExclude = false →
      m ∈ (updateRaycastObjects cfg sc st0).allSceneMeshes) ∧
    (∀ hits h rest,
      intersectObjects (updateRaycastObjects cfg sc st0).allSceneMeshes hits = h :: rest →
      h.objId = m →
      ((updateRaycastObjects cfg sc st0).userData m).isNavmesh = false →
      getTeleportPositionFromCursor cfg sc (updateRaycastObjects cfg sc st0) hits
        = none) := by
  refine ⟨?_, ?_, ?_, ?_⟩
  · unfold updateRaycastObjects
    simp only [hignore, reduceIte]
    split
    · exact List.mem_append_right _ (List.mem_map_of_mem MeshRef.scene hm)
    · exact List.mem_append_right _ (List.mem_map_of_mem MeshRef.scene hm)
  · intro hnmem
    unfold updateRaycastObjects
    dsimp only
    split
    · exact if_neg hnmem
    · rfl
  · intro htrav hvis hexcl
    unfold updateRaycastObjects
    dsimp only
    exact List.mem_filter.mpr ⟨htrav, by simp [hvis, hexcl]⟩
  · intro hits h rest hhead hobj hnav
    exact resolver_none_of_head_not_navmesh cfg sc _ hits h rest hhead (hobj ▸ hnav)

/-- Witness for the amended C8 at the concrete box-over-floor scene. -/
theorem ignore_entities_appended_and_occluding_witness :
    exCfgIgnore.ignoreEntitiesEmpty = false ∧
    1 ∈ exSceneIgnore.ignoreQuery.flatten ∧
    MeshRef.scene 1 ∈ (updateRaycastObjects exCfgIgnore exSceneIgnore exInit).rayCastObjects ∧
    (updateRaycastObjects exCfgIgnore exSceneIgnore exInit).userData 1 = exInit.userData 1 ∧
    1 ∈ (updateRaycastObjects exCfgIgnore exSceneIgnore exInit).allSceneMeshes ∧
    getTeleportPositionFromCursor exCfgIgnore exSceneIgnore
      (updateRaycastObjects exCfgIgnore exSceneIgnore exInit) [boxHit, floorHit]
      = none := by
  have h := ignore_entities_appended_and_occluding exCfgIgnore exSceneIgnore exInit 1
    rfl (by norm_num [exSceneIgnore])
  refine ⟨rfl, by norm_num [exSceneIgnore], h.1,
    h.2.1 (by norm_num [exSceneIgnore, exScene]), ?_, ?_⟩
  · exact h.2.2.1 (by norm_num [exSceneIgnore, exScene]) rfl rfl
  · refine h.2.2.2 [boxHit, floorHit] boxHit [floorHit] ?_ rfl ?_
    · norm_num [intersectObjects, updateRaycastObjects, exCfgIgnore, exCfg,
        exSceneIgnore, exScene, exInit, boxHit, floorHit, UserData.none]
    · norm_num [updateRaycastObjects, exCfgIgnore, exCfg, exSceneIgnore, exScene,
        exInit, UserData.none]

/-- C10. The desktop mouse adapter is dead code: `mouseDown`, `mouseMove` and
`mouseUp` are bound in `init` but never registered with any event source, and
among all registered handlers the only one that confirms a teleport is the
a-cursor click handler. -/
theorem mouse_adapter_unreachable :
    (HandlerRef.mouseDownH ∈ boundMethods ∧ HandlerRef.mouseMoveH ∈ boundMethods ∧
      HandlerRef.mouseUpH ∈ boundMethods) ∧
    (∀ l, l ∈ registeredListeners →
      l.handler ≠ HandlerRef.mouseDownH ∧ l.handler ≠ HandlerRef.mouseMoveH ∧
      l.handler ≠ HandlerRef.mouseUpH) ∧
    (∀ l, l ∈ registeredListeners → confirmsTeleport l.handler = true →
      l.handler = HandlerRef.cursorClickHandlerH) := by
  refine ⟨by decide, ?_, ?_⟩ <;> · intro l hl; fin_cases hl <;> simp [confirmsTeleport]

/-- Witness for C10: the a-cursor click registration is a registered listener
that confirms teleports. -/
theorem mouse_adapter_unreachable_witness :
    (⟨EventTarget.cursorElT, "click", HandlerRef.cursorClickHandlerH⟩ : ListenerEntry)
      ∈ registeredListeners ∧
    confirmsTeleport HandlerRef.cursorClickHandlerH = true ∧
    (⟨EventTarget.cursorElT, "click", HandlerRef.cursorClickHandlerH⟩ : ListenerEntry).handler
      ≠ HandlerRef.mouseDownH :=
  ⟨by decide, rfl,
   (mouse_adapter_unreachable.2.1
     ⟨EventTarget.cursorElT, "click", HandlerRef.cursorClickHandlerH⟩ (by decide)).1⟩

end ACursorNav
